import Mathlib

/-!
Verification of the Fire_Simulator core engine.

The engine (`src/backend/core/simulation.py`) and the FIRE evaluator
(`src/core_private/fire_calculations.py`) are shallowly embedded over `ℚ`
(exact rational arithmetic standing in for Python floats).  Payload fields
are `Option` values: `none` models an absent key.  Python's two defaulting
idioms are modelled separately:

* `d.get(k) or default` / `d.get(k, default) or default` — a present value
  equal to `0` still falls back to the default (`orD` / `orDZ` below);
* `d.get(k, default)` — a present `0` is honoured (`Option.getD`).

String formatting in the event log is presentation only; log entries are
embedded as a structured inductive carrying the logged numbers.
-/

namespace FireSim

/-- Python `x or d` defaulting for rational payload fields: absent or zero
falls back to the default. -/
def orD (v : Option ℚ) (d : ℚ) : ℚ :=
  match v with
  | none => d
  | some x => if x = 0 then d else x

/-- Python `x or d` defaulting for integer payload fields. -/
def orDZ (v : Option ℤ) (d : ℤ) : ℤ :=
  match v with
  | none => d
  | some x => if x = 0 then d else x

/-- `player_status` section of the payload (all keys optional). -/
structure PlayerStatus where
  age : Option ℤ
  savings : Option ℚ
  monthly_income : Option ℚ
  monthly_expense : Option ℚ
  debt : Option ℚ

/-- `investment_config` section of the payload. -/
structure InvestmentConfig where
  retirement_age : Option ℤ
  life_expectancy : Option ℤ
  inflation_rate : Option ℚ
  conservative_return_rate : Option ℚ
  growth_return_rate : Option ℚ
  cash_return : Option ℚ
  young_growth_ratio : Option ℚ
  young_conservative_ratio : Option ℚ
  young_cash_reserve_ratio : Option ℚ
  middle_growth_ratio : Option ℚ
  middle_conservative_ratio : Option ℚ
  middle_cash_reserve_ratio : Option ℚ
  old_growth_ratio : Option ℚ
  old_conservative_ratio : Option ℚ
  old_cash_reserve_ratio : Option ℚ

/-- `salary_config` section (only `young_growth_rate` is read by the engine). -/
structure SalaryConfig where
  young_growth_rate : Option ℚ

/-- `house_data` of a house-purchase life-planning event. -/
structure HouseData where
  house_price : Option ℚ
  down_payment_ratio : Option ℚ
  loan_rate : Option ℚ
  loan_years : Option ℤ
deriving DecidableEq

/-- A life-planning event: only the house-purchase type (`"買房"`) is acted
on; any other event record is ignored by the engine. -/
inductive LifeEvent where
  | buyHouse (hd : HouseData)
  | other
deriving DecidableEq

/-- The whole payload.  `life_planning` maps an age to the (ordered) list of
events keyed to it; an age with no events maps to `[]`. -/
structure Payload where
  player_status : PlayerStatus
  investment_config : InvestmentConfig
  salary_config : SalaryConfig
  life_planning : ℤ → List LifeEvent

/-- One record of the `financial_results` list (a monthly snapshot). -/
structure MonthlySnapshot where
  age : ℤ
  month : ℕ
  net_worth : ℚ
  savings : ℚ
  debt : ℚ
  monthly_income : ℚ
  monthly_expense : ℚ
  total_expense : ℚ
  stock_investment : ℚ
  bond_investment : ℚ
  cash_investment : ℚ
  real_estate_investment : ℚ
deriving DecidableEq

/-- One record of the `simulation_results` year-end map. -/
structure YearEndSnapshot where
  monthly_income : ℚ
  monthly_expense : ℚ
  savings : ℚ
  debt : ℚ
  stock_investment : ℚ
  bond_investment : ℚ
  cash_investment : ℚ
  net_worth : ℚ
  yearly_withdrawn : ℚ
  monthly_house_payment : ℚ
deriving DecidableEq

/-- Structured embedding of the event-log strings (formatting dropped,
logged numbers kept). -/
inductive LogEntry where
  | simStart
  | header (age retirement_age life_expectancy : ℤ) (inflation : ℚ)
  | buyHouseLog (age : ℤ) (house_price loan_amount monthly_payment : ℚ)
  | simEnd
deriving DecidableEq

/-- The engine's mutable local variables, threaded through the loops. -/
structure SimState where
  cur_age : ℤ
  monthly_income : ℚ
  monthly_expense : ℚ
  current_debt : ℚ
  monthly_house_payment : ℚ
  stock_amt : ℚ
  bond_amt : ℚ
  cash_amt : ℚ
deriving DecidableEq

/-- The value returned by `run_simulation`. -/
structure SimOutput where
  simulation_results : List (ℤ × YearEndSnapshot)
  financial_results : List MonthlySnapshot
  event_log : List LogEntry
deriving DecidableEq

/-- `calculate_monthly_payment` (simulation.py, lines 7–12): principal
average payment; the rate argument is accepted but unused. -/
def calculate_monthly_payment (principal : ℚ) (_annual_rate : ℚ) (years : ℤ) : ℚ :=
  if years ≤ 0 ∨ principal ≤ 0 then 0
  else principal / ((years : ℚ) * 12)

/-- Monthly cash return rate: `float(invest.get("cash_return", 0.02))` —
plain `.get` default, an explicit `0` is honoured. -/
def cash_ret (invest : InvestmentConfig) : ℚ :=
  (invest.cash_return).getD (1/50)

/-- Age-banded allocation ratios with normalization (simulation.py,
lines 72–92): sum ≤ 0 degrades to all cash. -/
def allocationRatios (invest : InvestmentConfig) (age : ℤ) : ℚ × ℚ × ℚ :=
  let raw :=
    if age ≤ 40 then
      (orD invest.young_growth_ratio 0, orD invest.young_conservative_ratio 0,
       orD invest.young_cash_reserve_ratio 0)
    else if age ≤ 55 then
      (orD invest.middle_growth_ratio 0, orD invest.middle_conservative_ratio 0,
       orD invest.middle_cash_reserve_ratio 0)
    else
      (orD invest.old_growth_ratio 0, orD invest.old_conservative_ratio 0,
       orD invest.old_cash_reserve_ratio 0)
  let total := raw.1 + raw.2.1 + raw.2.2
  if total ≤ 0 then (0, 0, 1)
  else (raw.1 / total, raw.2.1 / total, raw.2.2 / total)

/-- Processing of one life-planning event at the start of an accumulation
year (simulation.py, lines 60–70): a house purchase replaces the current
debt with the loan principal and sets the monthly house payment. -/
def applyHouseEvent (e : LifeEvent) (st : SimState × List LogEntry) :
    SimState × List LogEntry :=
  match e with
  | .other => st
  | .buyHouse hd =>
      let s := st.1
      let house_price := orD hd.house_price 0
      let down_payment_ratio := (hd.down_payment_ratio.getD 20) / 100
      let loan_rate := hd.loan_rate.getD (3/100)
      let loan_years := hd.loan_years.getD 30
      let loan_amount := house_price * (1 - down_payment_ratio)
      let payment := calculate_monthly_payment loan_amount loan_rate loan_years
      ({ s with current_debt := loan_amount, monthly_house_payment := payment },
       st.2 ++ [.buyHouseLog s.cur_age house_price loan_amount payment])

/-- All events keyed to the current age, in stored order. -/
def applyHouseEvents (events : List LifeEvent) (s : SimState) :
    SimState × List LogEntry :=
  events.foldl (fun st e => applyHouseEvent e st) (s, [])

/-- One accumulation-phase month (simulation.py, lines 95–128).  `cash_r`
is `cash_ret invest`: the Python code re-reads `invest["cash_return"]` every
month, but the read is loop-invariant, so it is resolved once here. -/
def accumMonth (cash_r cons_ret growth_ret gr cr hr : ℚ)
    (m : ℕ) (s : SimState) : SimState × MonthlySnapshot :=
  let net_monthly_income := s.monthly_income - s.monthly_house_payment
  let cashflow := net_monthly_income - s.monthly_expense
  let monthly_growth_ret := growth_ret / 12
  let monthly_cons_ret := cons_ret / 12
  let monthly_cash_ret := cash_r / 12
  let stock_amt := s.stock_amt * (1 + monthly_growth_ret) + cashflow * gr
  let bond_amt := s.bond_amt * (1 + monthly_cons_ret) + cashflow * cr
  let cash_amt := s.cash_amt * (1 + monthly_cash_ret) + cashflow * hr
  let current_debt :=
    if 0 < s.current_debt ∧ 0 < s.monthly_house_payment then
      max 0 (s.current_debt - s.monthly_house_payment)
    else s.current_debt
  ({ s with stock_amt := stock_amt, bond_amt := bond_amt, cash_amt := cash_amt,
            current_debt := current_debt },
   { age := s.cur_age, month := m + 1,
     net_worth := stock_amt + bond_amt + cash_amt,
     savings := 0, debt := current_debt,
     monthly_income := s.monthly_income, monthly_expense := s.monthly_expense,
     total_expense := s.monthly_expense + s.monthly_house_payment,
     stock_investment := stock_amt, bond_investment := bond_amt,
     cash_investment := cash_amt, real_estate_investment := 0 })

/-- One retirement-phase month (simulation.py, lines 152–202): compounding
first, then the cash → bond → stock withdrawal waterfall.  `cash_r` is the
loop-invariant `cash_ret invest`, as in `accumMonth`. -/
def retMonth (cash_r cons_ret growth_ret : ℚ)
    (m : ℕ) (s : SimState) : SimState × MonthlySnapshot :=
  let monthly_total_expense := s.monthly_expense + s.monthly_house_payment
  let monthly_growth_ret := growth_ret / 12
  let monthly_cons_ret := cons_ret / 12
  let monthly_cash_ret := cash_r / 12
  let stock0 := s.stock_amt * (1 + monthly_growth_ret)
  let bond0 := s.bond_amt * (1 + monthly_cons_ret)
  let cash0 := s.cash_amt * (1 + monthly_cash_ret)
  let amounts :=
    if monthly_total_expense ≤ cash0 then
      (stock0, bond0, cash0 - monthly_total_expense)
    else if monthly_total_expense ≤ cash0 + bond0 then
      (stock0, bond0 - (monthly_total_expense - cash0), (0 : ℚ))
    else
      (max 0 (stock0 - (monthly_total_expense - (cash0 + bond0))), (0 : ℚ), (0 : ℚ))
  let current_debt := max 0 (s.current_debt - s.monthly_house_payment)
  let savings := amounts.1 + amounts.2.1 + amounts.2.2
  ({ s with stock_amt := amounts.1, bond_amt := amounts.2.1,
            cash_amt := amounts.2.2, current_debt := current_debt },
   { age := s.cur_age, month := m + 1, net_worth := savings, savings := 0,
     debt := current_debt, monthly_income := 0,
     monthly_expense := s.monthly_expense,
     total_expense := monthly_total_expense,
     stock_investment := max 0 amounts.1, bond_investment := max 0 amounts.2.1,
     cash_investment := max 0 amounts.2.2, real_estate_investment := 0 })

/-- `for m in range(12)`: run `k` months starting at month index `m`. -/
def runMonths (step : ℕ → SimState → SimState × MonthlySnapshot) :
    ℕ → ℕ → SimState → SimState × List MonthlySnapshot
  | _, 0, s => (s, [])
  | m, k + 1, s =>
      let p := step m s
      let rest := runMonths step (m + 1) k p.1
      (rest.1, p.2 :: rest.2)

/-- One accumulation year (simulation.py, lines 55–147): events, allocation,
12 months, year-end snapshot, then age/expense/income progression.
`ratios` is `allocationRatios invest`; `salary_growth` is the loop-invariant
`float(salary.get("young_growth_rate", 0.0))` read at line 147. -/
def accumYear (ratios : ℤ → ℚ × ℚ × ℚ) (salary_growth : ℚ)
    (life_planning : ℤ → List LifeEvent) (inflation cons_ret growth_ret cash_r : ℚ)
    (s : SimState) :
    SimState × List MonthlySnapshot × List (ℤ × YearEndSnapshot) × List LogEntry :=
  let p0 := applyHouseEvents (life_planning s.cur_age) s
  let rs := ratios p0.1.cur_age
  let p1 := runMonths
    (accumMonth cash_r cons_ret growth_ret rs.1 rs.2.1 rs.2.2) 0 12 p0.1
  let s1 := p1.1
  let yearSnap : YearEndSnapshot :=
    { monthly_income := s1.monthly_income, monthly_expense := s1.monthly_expense,
      savings := 0, debt := s1.current_debt,
      stock_investment := s1.stock_amt, bond_investment := s1.bond_amt,
      cash_investment := s1.cash_amt,
      net_worth := s1.stock_amt + s1.bond_amt + s1.cash_amt,
      yearly_withdrawn := 0, monthly_house_payment := s1.monthly_house_payment }
  let s2 := { s1 with cur_age := s1.cur_age + 1,
                      monthly_expense := s1.monthly_expense * (1 + inflation),
                      monthly_income :=
                        s1.monthly_income * (1 + salary_growth) }
  (s2, p1.2, [(s1.cur_age, yearSnap)], p0.2)

/-- The accumulation-phase year loop. -/
def runAccumYears (ratios : ℤ → ℚ × ℚ × ℚ) (salary_growth : ℚ)
    (life_planning : ℤ → List LifeEvent) (inflation cons_ret growth_ret cash_r : ℚ) :
    ℕ → SimState →
    SimState × List MonthlySnapshot × List (ℤ × YearEndSnapshot) × List LogEntry
  | 0, s => (s, [], [], [])
  | k + 1, s =>
      let y := accumYear ratios salary_growth life_planning inflation cons_ret
        growth_ret cash_r s
      let rest := runAccumYears ratios salary_growth life_planning inflation cons_ret
        growth_ret cash_r k y.1
      (rest.1, y.2.1 ++ rest.2.1, y.2.2.1 ++ rest.2.2.1, y.2.2.2 ++ rest.2.2.2)

/-- One retirement year (simulation.py, lines 151–224): 12 months, year-end
snapshot, then age/expense progression and mortgage retirement. -/
def retYear (inflation cons_ret growth_ret cash_r : ℚ)
    (s : SimState) :
    SimState × List MonthlySnapshot × List (ℤ × YearEndSnapshot) :=
  let p1 := runMonths (retMonth cash_r cons_ret growth_ret) 0 12 s
  let s1 := p1.1
  let monthly_total_expense := s1.monthly_expense + s1.monthly_house_payment
  let savings := s1.stock_amt + s1.bond_amt + s1.cash_amt
  let yearSnap : YearEndSnapshot :=
    { monthly_income := 0, monthly_expense := s1.monthly_expense, savings := 0,
      debt := s1.current_debt, stock_investment := max 0 s1.stock_amt,
      bond_investment := max 0 s1.bond_amt, cash_investment := max 0 s1.cash_amt,
      net_worth := max 0 savings, yearly_withdrawn := monthly_total_expense * 12,
      monthly_house_payment := s1.monthly_house_payment }
  let s2 := { s1 with cur_age := s1.cur_age + 1,
                      monthly_expense := s1.monthly_expense * (1 + inflation),
                      monthly_house_payment :=
                        if s1.current_debt ≤ 0 then 0
                        else s1.monthly_house_payment }
  (s2, p1.2, [(s1.cur_age, yearSnap)])

/-- The retirement-phase year loop. -/
def runRetYears (inflation cons_ret growth_ret cash_r : ℚ) :
    ℕ → SimState → SimState × List MonthlySnapshot × List (ℤ × YearEndSnapshot)
  | 0, s => (s, [], [])
  | k + 1, s =>
      let y := retYear inflation cons_ret growth_ret cash_r s
      let rest := runRetYears inflation cons_ret growth_ret cash_r k y.1
      (rest.1, y.2.1 ++ rest.2.1, y.2.2 ++ rest.2.2)

/-- `run_simulation` (simulation.py, lines 14–234). -/
def run_simulation (payload : Payload) : SimOutput :=
  let ps := payload.player_status
  let invest := payload.investment_config
  let salary := payload.salary_config
  let life_planning := payload.life_planning
  let age := orDZ ps.age 25
  let retirement_age := orDZ invest.retirement_age 65
  let life_expectancy := orDZ invest.life_expectancy 85
  let years := (retirement_age - age).toNat
  let years_in_retirement := (life_expectancy - retirement_age).toNat
  let _savings := orD ps.savings 0
  let monthly_income := orD ps.monthly_income 0
  let monthly_expense := orD ps.monthly_expense 0
  let debt := orD ps.debt 0
  let inflation := orD invest.inflation_rate (3/100)
  let cons_ret := orD invest.conservative_return_rate (3/100)
  let growth_ret := orD invest.growth_return_rate (7/100)
  let header : List LogEntry :=
    [.simStart, .header age retirement_age life_expectancy inflation]
  let s0 : SimState :=
    { cur_age := age, monthly_income := monthly_income,
      monthly_expense := monthly_expense, current_debt := debt,
      monthly_house_payment := 0, stock_amt := 0, bond_amt := 0, cash_amt := 0 }
  let acc := runAccumYears (allocationRatios invest) (salary.young_growth_rate.getD 0)
    life_planning inflation cons_ret growth_ret (cash_ret invest) years s0
  let s1 := { acc.1 with monthly_income := 0 }
  let ret := runRetYears inflation cons_ret growth_ret (cash_ret invest)
    years_in_retirement s1
  { simulation_results := acc.2.2.1 ++ ret.2.2,
    financial_results := acc.2.1 ++ ret.2.1,
    event_log := (header ++ acc.2.2.2) ++ [.simEnd] }

/-! ### FIRE evaluator (`src/core_private/fire_calculations.py`) -/

/-- `FireCalculations.calculate_growing_annuity_present_value`
(fire_calculations.py, lines 16–51). -/
def calculate_growing_annuity_present_value (annual_expense : ℚ) (years : ℤ)
    (real_return_rate inflation_rate : ℚ) : ℚ :=
  if years ≤ 0 ∨ annual_expense ≤ 0 then 0
  else
    let r := real_return_rate
    let g := inflation_rate
    if |r - g| < 1 / 1000000 then annual_expense * (years : ℚ) / (1 + r)
    else annual_expense * (1 - ((1 + g) / (1 + r)) ^ years.toNat) / (r - g)

/-- `FireCalculations.calculate_retirement_target_growing_annuity`
(fire_calculations.py, lines 53–97). -/
def calculate_retirement_target_growing_annuity (current_monthly_expense : ℚ)
    (current_age retirement_age life_expectancy : ℤ)
    (inflation_rate real_return_rate : ℚ) : ℚ :=
  let g := inflation_rate
  let r := real_return_rate
  let years_to_retirement := (retirement_age - current_age).toNat
  let retirement_annual_expense :=
    current_monthly_expense * 12 * (1 + g) ^ years_to_retirement
  let years_in_retirement := max 0 (life_expectancy - retirement_age)
  calculate_growing_annuity_present_value retirement_annual_expense
    years_in_retirement r g

/-- `FireCalculations.calculate_retirement_target_traditional_25x`
(fire_calculations.py, lines 99–128). -/
def calculate_retirement_target_traditional_25x (current_monthly_expense : ℚ)
    (current_age retirement_age : ℤ) (inflation_rate : ℚ) : ℚ :=
  let g := inflation_rate
  let years_to_retirement := (retirement_age - current_age).toNat
  let retirement_annual_expense :=
    current_monthly_expense * 12 * (1 + g) ^ years_to_retirement
  retirement_annual_expense * 25

/-- Structured embedding of an achievement narrative string
(fire_calculations.py, lines 263 and 267). -/
inductive Achievement where
  | growing (age : ℤ) (target net_worth : ℚ)
  | traditional (age : ℤ) (target net_worth : ℚ)
deriving DecidableEq

/-- The `retirement_status` summary record (fire_calculations.py,
lines 269–278); `none` models the empty dict. -/
structure RetirementStatus where
  age : ℤ
  net_worth : ℚ
  monthly_expense : ℚ
  annual_expense : ℚ
  safe_withdrawal : ℚ
deriving DecidableEq

/-- The dictionary returned by `check_fire_achievement`. -/
structure FireResult where
  fire_age_growing : Option ℤ
  fire_age_traditional : Option ℤ
  fire_target_growing : ℚ
  fire_target_traditional : ℚ
  retirement_status : Option RetirementStatus
  achievements : List Achievement
deriving DecidableEq

/-- Accumulator of the per-age scan (the mutable parts of `result`). -/
structure ScanAcc where
  fire_age_growing : Option ℤ
  fire_age_traditional : Option ℤ
  achievements : List Achievement
deriving DecidableEq

/-- `future_expense` at a scanned age (fire_calculations.py, lines 246–247):
`current_monthly_expense * 12 * (1 + inflation) ** (age - current_age)`.
The exponent is an integer (`zpow`); ages below `current_age` give a
fractional factor exactly as Python's `**` does. -/
def future_expense (current_age : ℤ) (current_monthly_expense inflation : ℚ)
    (age : ℤ) : ℚ :=
  current_monthly_expense * 12 * (1 + inflation) ^ (age - current_age)

/-- The growing-annuity target at a scanned age (fire_calculations.py,
lines 250–255). -/
def age_fire_target_growing (life_expectancy current_age : ℤ)
    (current_monthly_expense conservative inflation : ℚ) (age : ℤ) : ℚ :=
  calculate_growing_annuity_present_value
    (future_expense current_age current_monthly_expense inflation age)
    (life_expectancy - age) conservative inflation

/-- The 25× target at a scanned age (fire_calculations.py, line 258). -/
def age_fire_target_traditional (current_age : ℤ)
    (current_monthly_expense inflation : ℚ) (age : ℤ) : ℚ :=
  future_expense current_age current_monthly_expense inflation age * 25

/-- Body of the per-age loop of `check_fire_achievement`
(fire_calculations.py, lines 233–267), for one `(age, data)` entry. -/
def fireScanStep (life_expectancy current_age : ℤ)
    (current_monthly_expense conservative inflation : ℚ)
    (acc : ScanAcc) (e : ℤ × YearEndSnapshot) : ScanAcc :=
  let age := e.1
  let net_worth := e.2.net_worth
  let remaining_life_years := life_expectancy - age
  if remaining_life_years ≤ 0 then acc
  else
    let age_fire_target_growing := age_fire_target_growing life_expectancy
      current_age current_monthly_expense conservative inflation age
    let age_fire_target_traditional := age_fire_target_traditional current_age
      current_monthly_expense inflation age
    let acc1 :=
      if acc.fire_age_growing = none ∧ age_fire_target_growing ≤ net_worth then
        { acc with fire_age_growing := some age,
                   achievements := acc.achievements ++
                     [.growing age age_fire_target_growing net_worth] }
      else acc
    if acc1.fire_age_traditional = none ∧ age_fire_target_traditional ≤ net_worth then
      { acc1 with fire_age_traditional := some age,
                  achievements := acc1.achievements ++
                    [.traditional age age_fire_target_traditional net_worth] }
    else acc1

/-- `sorted(simulation_results.keys())` iteration order: the entries sorted
by age.  (Dictionary keys are unique, so iterating sorted entries is the
same as looking each sorted key up.) -/
def sortedEntries (l : List (ℤ × YearEndSnapshot)) : List (ℤ × YearEndSnapshot) :=
  l.mergeSort (fun a b => a.1 ≤ b.1)

/-- `check_fire_achievement` (fire_calculations.py, lines 171–280).  The
year-end map is an association list with unique keys (ages). -/
def check_fire_achievement (simulation_results : List (ℤ × YearEndSnapshot))
    (player_status : PlayerStatus) (investment_config : InvestmentConfig) :
    FireResult :=
  let retirement_age := orDZ investment_config.retirement_age 65
  let life_expectancy := orDZ investment_config.life_expectancy 85
  let inflation := orD investment_config.inflation_rate (3/100)
  let conservative := orD investment_config.conservative_return_rate (3/100)
  let current_age := orDZ player_status.age 25
  let current_monthly_expense := orD player_status.monthly_expense 0
  let targets : ℚ × ℚ :=
    match simulation_results.lookup retirement_age with
    | some data =>
        let retirement_expenses := data.monthly_expense * 12
        let years := max 0 (life_expectancy - retirement_age)
        (calculate_growing_annuity_present_value retirement_expenses years
          conservative inflation,
         retirement_expenses * 25)
    | none =>
        (calculate_retirement_target_growing_annuity current_monthly_expense
          current_age retirement_age life_expectancy inflation conservative,
         calculate_retirement_target_traditional_25x current_monthly_expense
          current_age retirement_age inflation)
  let scan := (sortedEntries simulation_results).foldl
    (fireScanStep life_expectancy current_age current_monthly_expense
      conservative inflation)
    { fire_age_growing := none, fire_age_traditional := none, achievements := [] }
  let retirement_status : Option RetirementStatus :=
    match simulation_results.lookup retirement_age with
    | some data =>
        some { age := retirement_age, net_worth := data.net_worth,
               monthly_expense := data.monthly_expense,
               annual_expense := data.monthly_expense * 12,
               safe_withdrawal := data.net_worth * (4/100) }
    | none => none
  { fire_age_growing := scan.fire_age_growing,
    fire_age_traditional := scan.fire_age_traditional,
    fire_target_growing := targets.1,
    fire_target_traditional := targets.2,
    retirement_status := retirement_status,
    achievements := scan.achievements }

/-- A year-end entry qualifies for the growing-annuity formula: it is not
skipped (remaining life years > 0) and its net worth meets that age's
growing-annuity target. -/
def qualifiesGrowing (life_expectancy current_age : ℤ)
    (current_monthly_expense conservative inflation : ℚ)
    (e : ℤ × YearEndSnapshot) : Prop :=
  ¬(life_expectancy - e.1 ≤ 0) ∧
    age_fire_target_growing life_expectancy current_age current_monthly_expense
      conservative inflation e.1 ≤ e.2.net_worth

/-- A year-end entry qualifies for the 25× formula. -/
def qualifiesTraditional (life_expectancy current_age : ℤ)
    (current_monthly_expense inflation : ℚ) (e : ℤ × YearEndSnapshot) : Prop :=
  ¬(life_expectancy - e.1 ≤ 0) ∧
    age_fire_target_traditional current_age current_monthly_expense inflation e.1
      ≤ e.2.net_worth

instance (le ca : ℤ) (E0 c g : ℚ) (e : ℤ × YearEndSnapshot) :
    Decidable (qualifiesGrowing le ca E0 c g e) :=
  inferInstanceAs (Decidable (¬(le - e.1 ≤ 0) ∧
    age_fire_target_growing le ca E0 c g e.1 ≤ e.2.net_worth))

instance (le ca : ℤ) (E0 g : ℚ) (e : ℤ × YearEndSnapshot) :
    Decidable (qualifiesTraditional le ca E0 g e) :=
  inferInstanceAs (Decidable (¬(le - e.1 ≤ 0) ∧
    age_fire_target_traditional ca E0 g e.1 ≤ e.2.net_worth))

/-! ### Concrete payloads used as test inputs -/

/-- An `investment_config` with every key absent. -/
def noInvest : InvestmentConfig where
  retirement_age := none
  life_expectancy := none
  inflation_rate := none
  conservative_return_rate := none
  growth_return_rate := none
  cash_return := none
  young_growth_ratio := none
  young_conservative_ratio := none
  young_cash_reserve_ratio := none
  middle_growth_ratio := none
  middle_conservative_ratio := none
  middle_cash_reserve_ratio := none
  old_growth_ratio := none
  old_conservative_ratio := none
  old_cash_reserve_ratio := none

/-- A `player_status` with every key absent. -/
def noPlayer : PlayerStatus where
  age := none
  savings := none
  monthly_income := none
  monthly_expense := none
  debt := none

/-- Age 25, monthly expense 1000, no income, one accumulation year
(retirement and life expectancy both 26): every month has net cash flow
−1000 entirely allocated to cash (all-cash fallback). -/
def P3 : Payload where
  player_status := { noPlayer with age := some 25, monthly_expense := some 1000 }
  investment_config :=
    { noInvest with retirement_age := some 26, life_expectancy := some 26 }
  salary_config := { young_growth_rate := none }
  life_planning := fun _ => []

/-- Start age 30, retirement and life expectancy 60 (360 accumulation
months, no retirement months), zero income/expense, explicit cash return 0,
and a house-purchase event at age 30: price 15,000,000, 20% down, 3% rate,
30-year term. -/
def P4 : Payload where
  player_status := { noPlayer with age := some 30 }
  investment_config :=
    { noInvest with retirement_age := some 60, life_expectancy := some 60,
                    cash_return := some 0 }
  salary_config := { young_growth_rate := none }
  life_planning := fun a =>
    if a = 30 then
      [LifeEvent.buyHouse
        { house_price := some 15000000, down_payment_ratio := some 20,
          loan_rate := some (3/100), loan_years := some 30 }]
    else []

/-- Age 25 with retirement age 90 above life expectancy 85: the
accumulation loop alone runs (90 − 25) × 12 = 780 months. -/
def P8 : Payload where
  player_status := { noPlayer with age := some 25 }
  investment_config :=
    { noInvest with retirement_age := some 90, life_expectancy := some 85 }
  salary_config := { young_growth_rate := none }
  life_planning := fun _ => []

end FireSim

/- Batteries marks the `Rat` field operations `@[irreducible]`, which blocks
the `decide` tactic's pre-kernel evaluation of concrete rational
computations; re-mark them reducible for the theorems below.  (Kernel-side
checking is unaffected either way.) -/
set_option allowUnsafeReducibility true in
attribute [semireducible] Rat.add Rat.mul Rat.sub Rat.div Rat.inv Rat.neg

namespace FireSim

/-- C6: the three cases of `calculate_growing_annuity_present_value`:
0 when `n ≤ 0` or `E₀ ≤ 0`; the degenerate limit `E₀ × n / (1+r)` when
`|r − g| < 1e-6`; otherwise `E₀ × (1 − ((1+g)/(1+r))^n) / (r − g)`. -/
theorem C6_growing_annuity_cases (E : ℚ) (n : ℤ) (r g : ℚ) :
    (n ≤ 0 ∨ E ≤ 0 → calculate_growing_annuity_present_value E n r g = 0) ∧
    (0 < n → 0 < E → |r - g| < 1 / 1000000 →
      calculate_growing_annuity_present_value E n r g = E * (n : ℚ) / (1 + r)) ∧
    (0 < n → 0 < E → ¬|r - g| < 1 / 1000000 →
      calculate_growing_annuity_present_value E n r g =
        E * (1 - ((1 + g) / (1 + r)) ^ n.toNat) / (r - g)) := by
  refine ⟨fun h => ?_, fun hn hE h => ?_, fun hn hE h => ?_⟩
  · simp only [calculate_growing_annuity_present_value, if_pos h]
  · have hc : ¬(n ≤ 0 ∨ E ≤ 0) := by push_neg; exact ⟨hn, hE⟩
    simp only [calculate_growing_annuity_present_value, if_neg hc, if_pos h]
  · have hc : ¬(n ≤ 0 ∨ E ≤ 0) := by push_neg; exact ⟨hn, hE⟩
    simp only [calculate_growing_annuity_present_value, if_neg hc, if_neg h]

/-- Witness for C6 at `E₀ = 5`, `n = 2`, `r = 1/2`, `g = 0`. -/
theorem C6_growing_annuity_cases_witness :
    (0 : ℤ) < 2 ∧ (0 : ℚ) < 5 ∧ ¬|(1 : ℚ) / 2 - 0| < 1 / 1000000 ∧
    calculate_growing_annuity_present_value 5 2 (1 / 2) 0 =
      5 * (1 - ((1 + 0) / (1 + 1 / 2)) ^ (2 : ℤ).toNat) / (1 / 2 - 0) := by
  have habs : ¬|(1 : ℚ) / 2 - 0| < 1 / 1000000 := by
    rw [sub_zero, abs_of_nonneg (by norm_num : (0 : ℚ) ≤ 1 / 2)]
    norm_num
  exact ⟨by norm_num, by norm_num, habs,
    (C6_growing_annuity_cases 5 2 (1 / 2) 0).2.2 (by norm_num) (by norm_num) habs⟩

/-- C7: `calculate_monthly_payment` is `principal / (years × 12)` for
positive principal and term, independent of the rate argument; 0 when
principal ≤ 0 or term ≤ 0; and `years × 12` such payments sum to the
principal exactly. -/
theorem C7_monthly_payment (P r r' : ℚ) (T : ℤ) :
    (0 < P → 0 < T → calculate_monthly_payment P r T = P / ((T : ℚ) * 12)) ∧
    calculate_monthly_payment P r T = calculate_monthly_payment P r' T ∧
    (P ≤ 0 ∨ T ≤ 0 → calculate_monthly_payment P r T = 0) ∧
    (0 < P → 0 < T →
      (Finset.range (T.toNat * 12)).sum
          (fun _ => calculate_monthly_payment P r T) = P) := by
  have hval : 0 < P → 0 < T → calculate_monthly_payment P r T = P / ((T : ℚ) * 12) := by
    intro hP hT
    have hc : ¬(T ≤ 0 ∨ P ≤ 0) := by push_neg; exact ⟨hT, hP⟩
    simp only [calculate_monthly_payment, if_neg hc]
  refine ⟨hval, rfl, fun h => ?_, fun hP hT => ?_⟩
  · rcases h with h | h
    · simp only [calculate_monthly_payment, if_pos (Or.inr h)]
    · simp only [calculate_monthly_payment, if_pos (Or.inl h)]
  · rw [hval hP hT, Finset.sum_const, Finset.card_range, nsmul_eq_mul]
    have hT0 : (T : ℚ) ≠ 0 := Int.cast_ne_zero.mpr hT.ne'
    have hcast : ((T.toNat * 12 : ℕ) : ℚ) = (T : ℚ) * 12 := by
      have : ((T.toNat : ℤ) : ℚ) = (T : ℚ) := by rw [Int.toNat_of_nonneg hT.le]
      push_cast at this ⊢
      rw [this]
    rw [hcast]
    field_simp

/-- Witness for C7 at `P = 100`, `T = 2`. -/
theorem C7_monthly_payment_witness :
    (0 : ℚ) < 100 ∧ (0 : ℤ) < 2 ∧
    (Finset.range ((2 : ℤ).toNat * 12)).sum
        (fun _ => calculate_monthly_payment 100 0 2) = 100 :=
  ⟨by norm_num, by norm_num,
   (C7_monthly_payment 100 0 1 2).2.2.2 (by norm_num) (by norm_num)⟩

/-- C1: one accumulation month computes cash flow
`(income − house payment) − expense`, updates each balance to
`balance × (1 + annual_rate/12) + cashflow × weight`, reduces debt by the
house payment floored at zero, and the emitted snapshot's net worth is the
sum of the three updated balances. -/
theorem C1_accumulation_month (cash_r cons_ret growth_ret gr cr hr : ℚ) (m : ℕ)
    (s : SimState) (hdebt : 0 ≤ s.current_debt)
    (hpay : 0 ≤ s.monthly_house_payment) :
    (accumMonth cash_r cons_ret growth_ret gr cr hr m s).1.stock_amt =
      s.stock_amt * (1 + growth_ret / 12) +
        ((s.monthly_income - s.monthly_house_payment) - s.monthly_expense) * gr ∧
    (accumMonth cash_r cons_ret growth_ret gr cr hr m s).1.bond_amt =
      s.bond_amt * (1 + cons_ret / 12) +
        ((s.monthly_income - s.monthly_house_payment) - s.monthly_expense) * cr ∧
    (accumMonth cash_r cons_ret growth_ret gr cr hr m s).1.cash_amt =
      s.cash_amt * (1 + cash_r / 12) +
        ((s.monthly_income - s.monthly_house_payment) - s.monthly_expense) * hr ∧
    (accumMonth cash_r cons_ret growth_ret gr cr hr m s).1.current_debt =
      max 0 (s.current_debt - s.monthly_house_payment) ∧
    (accumMonth cash_r cons_ret growth_ret gr cr hr m s).2.net_worth =
      (accumMonth cash_r cons_ret growth_ret gr cr hr m s).1.stock_amt +
        (accumMonth cash_r cons_ret growth_ret gr cr hr m s).1.bond_amt +
        (accumMonth cash_r cons_ret growth_ret gr cr hr m s).1.cash_amt := by
  refine ⟨rfl, rfl, rfl, ?_, rfl⟩
  show (if 0 < s.current_debt ∧ 0 < s.monthly_house_payment then
      max 0 (s.current_debt - s.monthly_house_payment)
    else s.current_debt) = max 0 (s.current_debt - s.monthly_house_payment)
  by_cases h : 0 < s.current_debt ∧ 0 < s.monthly_house_payment
  · rw [if_pos h]
  · rw [if_neg h]
    rcases not_and_or.mp h with h1 | h1
    · have hd0 : s.current_debt = 0 := le_antisymm (not_lt.mp h1) hdebt
      rw [hd0, zero_sub, max_eq_left (neg_nonpos.mpr hpay)]
    · have hp0 : s.monthly_house_payment = 0 := le_antisymm (not_lt.mp h1) hpay
      rw [hp0, sub_zero, max_eq_right hdebt]

/-- Witness for C1 at a state with debt 10, house payment 2, income 5,
expense 3, all-cash weight. -/
theorem C1_accumulation_month_witness :
    (0 : ℚ) ≤ (10 : ℚ) ∧ (0 : ℚ) ≤ (2 : ℚ) ∧
    (accumMonth 0 0 0 0 0 1 0 ⟨30, 5, 3, 10, 2, 0, 0, 0⟩).1.cash_amt =
      (0 : ℚ) * (1 + 0 / 12) + ((5 - 2) - 3) * 1 :=
  ⟨by norm_num, by norm_num,
   (C1_accumulation_month 0 0 0 0 0 1 0 ⟨30, 5, 3, 10, 2, 0, 0, 0⟩
     (by norm_num) (by norm_num)).2.2.1⟩

/-- C2: in a retirement month, after compounding, the outflow is withdrawn
cash → conservative → growth: within cash, only cash decreases; past cash
but within cash+bond, cash zeroes, bond covers the shortfall, stock is
untouched; past both, cash and bond zero and stock absorbs the remainder
clamped at zero. -/
theorem C2_retirement_waterfall (cash_r cons_ret growth_ret : ℚ) (m : ℕ)
    (s : SimState) :
    (s.monthly_expense + s.monthly_house_payment ≤ s.cash_amt * (1 + cash_r / 12) →
      (retMonth cash_r cons_ret growth_ret m s).1.cash_amt =
          s.cash_amt * (1 + cash_r / 12) -
            (s.monthly_expense + s.monthly_house_payment) ∧
        (retMonth cash_r cons_ret growth_ret m s).1.bond_amt =
          s.bond_amt * (1 + cons_ret / 12) ∧
        (retMonth cash_r cons_ret growth_ret m s).1.stock_amt =
          s.stock_amt * (1 + growth_ret / 12)) ∧
    (s.cash_amt * (1 + cash_r / 12) < s.monthly_expense + s.monthly_house_payment →
      s.monthly_expense + s.monthly_house_payment ≤
          s.cash_amt * (1 + cash_r / 12) + s.bond_amt * (1 + cons_ret / 12) →
      (retMonth cash_r cons_ret growth_ret m s).1.cash_amt = 0 ∧
        (retMonth cash_r cons_ret growth_ret m s).1.bond_amt =
          s.bond_amt * (1 + cons_ret / 12) -
            ((s.monthly_expense + s.monthly_house_payment) -
              s.cash_amt * (1 + cash_r / 12)) ∧
        (retMonth cash_r cons_ret growth_ret m s).1.stock_amt =
          s.stock_amt * (1 + growth_ret / 12)) ∧
    (s.cash_amt * (1 + cash_r / 12) < s.monthly_expense + s.monthly_house_payment →
      s.cash_amt * (1 + cash_r / 12) + s.bond_amt * (1 + cons_ret / 12) <
          s.monthly_expense + s.monthly_house_payment →
      (retMonth cash_r cons_ret growth_ret m s).1.cash_amt = 0 ∧
        (retMonth cash_r cons_ret growth_ret m s).1.bond_amt = 0 ∧
        (retMonth cash_r cons_ret growth_ret m s).1.stock_amt =
          max 0 (s.stock_amt * (1 + growth_ret / 12) -
            ((s.monthly_expense + s.monthly_house_payment) -
              (s.cash_amt * (1 + cash_r / 12) +
                s.bond_amt * (1 + cons_ret / 12))))) := by
  refine ⟨fun h1 => ?_, fun h1 h2 => ?_, fun h1 h2 => ?_⟩
  · simp only [retMonth, if_pos h1]
    exact ⟨trivial, trivial, trivial⟩
  · simp only [retMonth, if_neg (not_le.mpr h1), if_pos h2]
    exact ⟨trivial, trivial, trivial⟩
  · simp only [retMonth, if_neg (not_le.mpr h1), if_neg (not_le.mpr h2)]
    exact ⟨trivial, trivial, trivial⟩

/-- Witness for C2: cash 10 (no compounding), bond 5, stock 7, outflow 12
falls in the second waterfall tier. -/
theorem C2_retirement_waterfall_witness :
    (10 : ℚ) * (1 + 0 / 12) < 8 + 4 ∧
    (8 : ℚ) + 4 ≤ 10 * (1 + 0 / 12) + 5 * (1 + 0 / 12) ∧
    ((retMonth 0 0 0 0 ⟨70, 0, 8, 0, 4, 7, 5, 10⟩).1.cash_amt = 0 ∧
      (retMonth 0 0 0 0 ⟨70, 0, 8, 0, 4, 7, 5, 10⟩).1.bond_amt =
        5 * (1 + 0 / 12) - ((8 + 4) - 10 * (1 + 0 / 12)) ∧
      (retMonth 0 0 0 0 ⟨70, 0, 8, 0, 4, 7, 5, 10⟩).1.stock_amt =
        7 * (1 + 0 / 12)) :=
  ⟨by norm_num, by norm_num,
   (C2_retirement_waterfall 0 0 0 0 ⟨70, 0, 8, 0, 4, 7, 5, 10⟩).2.1
     (by norm_num) (by norm_num)⟩

/-- C3 is false as stated: with payload `P3` (monthly expense 1000 and no
income, a configuration the claim explicitly includes), the cash balance
recorded after the very first accumulation month is −1000 < 0 — the
accumulation phase has no clamping. -/
theorem C3_counterexample :
    ((run_simulation P3).financial_results.get? 0).map
        MonthlySnapshot.cash_investment = some (-1000) ∧ (-1000 : ℚ) < 0 :=
  ⟨by decide, by norm_num⟩

/-- C3 (amended): balances stay non-negative through an accumulation month
only under the additional hypothesis that the month's net cash flow is
non-negative (weights and compounding factors non-negative); retirement
months preserve non-negativity with no cash-flow hypothesis. -/
theorem C3_amended_nonneg :
    (∀ (cash_r cons_ret growth_ret gr cr hr : ℚ) (m : ℕ) (s : SimState),
      0 ≤ s.stock_amt → 0 ≤ s.bond_amt → 0 ≤ s.cash_amt →
      0 ≤ 1 + growth_ret / 12 → 0 ≤ 1 + cons_ret / 12 → 0 ≤ 1 + cash_r / 12 →
      0 ≤ gr → 0 ≤ cr → 0 ≤ hr →
      0 ≤ (s.monthly_income - s.monthly_house_payment) - s.monthly_expense →
      0 ≤ (accumMonth cash_r cons_ret growth_ret gr cr hr m s).1.stock_amt ∧
        0 ≤ (accumMonth cash_r cons_ret growth_ret gr cr hr m s).1.bond_amt ∧
        0 ≤ (accumMonth cash_r cons_ret growth_ret gr cr hr m s).1.cash_amt) ∧
    (∀ (cash_r cons_ret growth_ret : ℚ) (m : ℕ) (s : SimState),
      0 ≤ s.stock_amt → 0 ≤ s.bond_amt → 0 ≤ s.cash_amt →
      0 ≤ 1 + growth_ret / 12 → 0 ≤ 1 + cons_ret / 12 → 0 ≤ 1 + cash_r / 12 →
      0 ≤ (retMonth cash_r cons_ret growth_ret m s).1.stock_amt ∧
        0 ≤ (retMonth cash_r cons_ret growth_ret m s).1.bond_amt ∧
        0 ≤ (retMonth cash_r cons_ret growth_ret m s).1.cash_amt) := by
  constructor
  · intro cash_r cons_ret growth_ret gr cr hr m s hs hb hc hg hcn hca hgr hcr hhr hcf
    exact ⟨add_nonneg (mul_nonneg hs hg) (mul_nonneg hcf hgr),
           add_nonneg (mul_nonneg hb hcn) (mul_nonneg hcf hcr),
           add_nonneg (mul_nonneg hc hca) (mul_nonneg hcf hhr)⟩
  · intro cash_r cons_ret growth_ret m s hs hb hc hg hcn hca
    have hs0 : 0 ≤ s.stock_amt * (1 + growth_ret / 12) := mul_nonneg hs hg
    have hb0 : 0 ≤ s.bond_amt * (1 + cons_ret / 12) := mul_nonneg hb hcn
    have hc0 : 0 ≤ s.cash_amt * (1 + cash_r / 12) := mul_nonneg hc hca
    by_cases h1 : s.monthly_expense + s.monthly_house_payment ≤
        s.cash_amt * (1 + cash_r / 12)
    · simp only [retMonth, if_pos h1]
      exact ⟨hs0, hb0, sub_nonneg.mpr h1⟩
    · by_cases h2 : s.monthly_expense + s.monthly_house_payment ≤
          s.cash_amt * (1 + cash_r / 12) + s.bond_amt * (1 + cons_ret / 12)
      · simp only [retMonth, if_neg h1, if_pos h2]
        refine ⟨hs0, ?_, le_refl 0⟩
        have := not_le.mp h1
        linarith
      · simp only [retMonth, if_neg h1, if_neg h2]
        exact ⟨le_max_left 0 _, le_refl 0, le_refl 0⟩

/-- Witness for the amended C3 at a state with positive cash flow
(accumulation part) and at a retirement state in the middle waterfall tier
(retirement part). -/
theorem C3_amended_nonneg_witness :
    ((0 : ℚ) ≤ 1 ∧ (0 : ℚ) ≤ (5 - 0) - 3 ∧
      0 ≤ (accumMonth 0 0 0 0 0 1 0 ⟨25, 5, 3, 0, 0, 1, 1, 1⟩).1.cash_amt) ∧
    ((0 : ℚ) ≤ 10 ∧
      0 ≤ (retMonth 0 0 0 0 ⟨70, 0, 8, 0, 4, 7, 5, 10⟩).1.bond_amt) := by
  constructor
  · exact ⟨by norm_num, by norm_num,
      ((C3_amended_nonneg.1 0 0 0 0 0 1 0 ⟨25, 5, 3, 0, 0, 1, 1, 1⟩ (by norm_num)
        (by norm_num) (by norm_num) (by norm_num) (by norm_num) (by norm_num)
        (by norm_num) (by norm_num) (by norm_num) (by norm_num)).2.2)⟩
  · exact ⟨by norm_num,
      ((C3_amended_nonneg.2 0 0 0 0 ⟨70, 0, 8, 0, 4, 7, 5, 10⟩ (by norm_num)
        (by norm_num) (by norm_num) (by norm_num) (by norm_num)
        (by norm_num)).2.1)⟩

/-- The month loop emits exactly one snapshot per month. -/
theorem runMonths_length (step : ℕ → SimState → SimState × MonthlySnapshot)
    (k : ℕ) : ∀ (m : ℕ) (s : SimState),
    ((runMonths step m k s).2).length = k := by
  induction k with
  | zero => intro m s; rfl
  | succ n ih => intro m s; simp only [runMonths, List.length_cons, ih]

/-- An accumulation year emits exactly 12 monthly snapshots. -/
theorem accumYear_snaps_length (ratios : ℤ → ℚ × ℚ × ℚ) (sg : ℚ)
    (lp : ℤ → List LifeEvent) (infl c g cr : ℚ) (s : SimState) :
    ((accumYear ratios sg lp infl c g cr s).2.1).length = 12 := by
  simp only [accumYear]
  exact runMonths_length _ _ _ _

/-- The accumulation phase emits exactly `12 × years` monthly snapshots. -/
theorem runAccumYears_snaps_length (ratios : ℤ → ℚ × ℚ × ℚ) (sg : ℚ)
    (lp : ℤ → List LifeEvent) (infl c g cr : ℚ) (k : ℕ) :
    ∀ s : SimState,
    ((runAccumYears ratios sg lp infl c g cr k s).2.1).length = 12 * k := by
  induction k with
  | zero => intro s; rfl
  | succ n ih =>
      intro s
      simp only [runAccumYears, List.length_append, accumYear_snaps_length, ih]
      ring

/-- A retirement year emits exactly 12 monthly snapshots. -/
theorem retYear_snaps_length (infl c g cr : ℚ) (s : SimState) :
    ((retYear infl c g cr s).2.1).length = 12 := by
  simp only [retYear]
  exact runMonths_length _ _ _ _

/-- The retirement phase emits exactly `12 × years` monthly snapshots. -/
theorem runRetYears_snaps_length (infl c g cr : ℚ) (k : ℕ) :
    ∀ s : SimState,
    ((runRetYears infl c g cr k s).2.1).length = 12 * k := by
  induction k with
  | zero => intro s; rfl
  | succ n ih =>
      intro s
      simp only [runRetYears, List.length_append, retYear_snaps_length, ih]
      ring

/-- The exact month count of a whole simulation:
`12 × (max 0 (retirement − age) + max 0 (life − retirement))`. -/
theorem run_simulation_months_length (payload : Payload) :
    (run_simulation payload).financial_results.length =
      12 * ((orDZ payload.investment_config.retirement_age 65 -
              orDZ payload.player_status.age 25).toNat +
            (orDZ payload.investment_config.life_expectancy 85 -
              orDZ payload.investment_config.retirement_age 65).toNat) := by
  simp only [run_simulation, List.length_append, runAccumYears_snaps_length,
    runRetYears_snaps_length]
  ring

/-- C8 is false as stated: with payload `P8` (retirement age 90 above life
expectancy 85, a configuration the claim explicitly includes), the engine
emits 780 monthly snapshots, exceeding `(85 − 25) × 12 = 720`. -/
theorem C8_counterexample :
    ¬((run_simulation P8).financial_results.length ≤
        ((85 : ℤ) - 25).toNat * 12) := by
  rw [run_simulation_months_length]
  decide

/-- C8 (amended): the snapshot list has length exactly
`12 × (max 0 (retirement − start) + max 0 (life − retirement))`, which is
bounded by `(life − start) × 12` whenever `start ≤ retirement ≤ life` (but
not otherwise, as the counterexample shows). -/
theorem C8_amended_month_bound (payload : Payload) :
    (run_simulation payload).financial_results.length =
      12 * ((orDZ payload.investment_config.retirement_age 65 -
              orDZ payload.player_status.age 25).toNat +
            (orDZ payload.investment_config.life_expectancy 85 -
              orDZ payload.investment_config.retirement_age 65).toNat) ∧
    (orDZ payload.player_status.age 25 ≤
        orDZ payload.investment_config.retirement_age 65 →
      orDZ payload.investment_config.retirement_age 65 ≤
        orDZ payload.investment_config.life_expectancy 85 →
      (run_simulation payload).financial_results.length ≤
        (orDZ payload.investment_config.life_expectancy 85 -
          orDZ payload.player_status.age 25).toNat * 12) := by
  refine ⟨run_simulation_months_length payload, fun h1 h2 => ?_⟩
  rw [run_simulation_months_length]
  omega

/-- Witness for the amended C8 at `P3` (ages 25 ≤ 26 ≤ 26). -/
theorem C8_amended_month_bound_witness :
    (orDZ P3.player_status.age 25 ≤
        orDZ P3.investment_config.retirement_age 65) ∧
    (orDZ P3.investment_config.retirement_age 65 ≤
        orDZ P3.investment_config.life_expectancy 85) ∧
    (run_simulation P3).financial_results.length ≤
      (orDZ P3.investment_config.life_expectancy 85 -
        orDZ P3.player_status.age 25).toNat * 12 :=
  ⟨by decide, by decide,
   (C8_amended_month_bound P3).2 (by decide) (by decide)⟩

/-- C9: two payloads differing only in `player_status.savings` produce
identical outputs (year-end map, monthly list, and event log): the three
balances start at 0 and the supplied savings value is never read again. -/
theorem C9_savings_never_used (a : Option ℤ) (sv sv' mi me d : Option ℚ)
    (inv : InvestmentConfig) (sal : SalaryConfig) (lp : ℤ → List LifeEvent) :
    run_simulation ⟨⟨a, sv, mi, me, d⟩, inv, sal, lp⟩ =
      run_simulation ⟨⟨a, sv', mi, me, d⟩, inv, sal, lp⟩ := rfl

/-- C10: for each of the six `or`-defaulted fields, an explicit 0 behaves
exactly like an absent key; by contrast an explicit `cash_return = 0` is
honoured (`.get`-defaulting) and removes cash compounding. -/
theorem C10_zero_is_absent (ra le : Option ℤ)
    (ir crr grr cashr ygr ycr ychr mgr mcr mchr ogr ocr ochr : Option ℚ)
    (a : Option ℤ) (sv mi me d : Option ℚ) (sal : SalaryConfig)
    (lp : ℤ → List LifeEvent) :
    (run_simulation ⟨⟨some 0, sv, mi, me, d⟩,
        ⟨ra, le, ir, crr, grr, cashr, ygr, ycr, ychr, mgr, mcr, mchr, ogr, ocr, ochr⟩, sal, lp⟩ =
      run_simulation ⟨⟨none, sv, mi, me, d⟩,
        ⟨ra, le, ir, crr, grr, cashr, ygr, ycr, ychr, mgr, mcr, mchr, ogr, ocr, ochr⟩, sal, lp⟩) ∧
    (run_simulation ⟨⟨a, sv, mi, me, d⟩,
        ⟨some 0, le, ir, crr, grr, cashr, ygr, ycr, ychr, mgr, mcr, mchr, ogr, ocr, ochr⟩, sal, lp⟩ =
      run_simulation ⟨⟨a, sv, mi, me, d⟩,
        ⟨none, le, ir, crr, grr, cashr, ygr, ycr, ychr, mgr, mcr, mchr, ogr, ocr, ochr⟩, sal, lp⟩) ∧
    (run_simulation ⟨⟨a, sv, mi, me, d⟩,
        ⟨ra, some 0, ir, crr, grr, cashr, ygr, ycr, ychr, mgr, mcr, mchr, ogr, ocr, ochr⟩, sal, lp⟩ =
      run_simulation ⟨⟨a, sv, mi, me, d⟩,
        ⟨ra, none, ir, crr, grr, cashr, ygr, ycr, ychr, mgr, mcr, mchr, ogr, ocr, ochr⟩, sal, lp⟩) ∧
    (run_simulation ⟨⟨a, sv, mi, me, d⟩,
        ⟨ra, le, some 0, crr, grr, cashr, ygr, ycr, ychr, mgr, mcr, mchr, ogr, ocr, ochr⟩, sal, lp⟩ =
      run_simulation ⟨⟨a, sv, mi, me, d⟩,
        ⟨ra, le, none, crr, grr, cashr, ygr, ycr, ychr, mgr, mcr, mchr, ogr, ocr, ochr⟩, sal, lp⟩) ∧
    (run_simulation ⟨⟨a, sv, mi, me, d⟩,
        ⟨ra, le, ir, some 0, grr, cashr, ygr, ycr, ychr, mgr, mcr, mchr, ogr, ocr, ochr⟩, sal, lp⟩ =
      run_simulation ⟨⟨a, sv, mi, me, d⟩,
        ⟨ra, le, ir, none, grr, cashr, ygr, ycr, ychr, mgr, mcr, mchr, ogr, ocr, ochr⟩, sal, lp⟩) ∧
    (run_simulation ⟨⟨a, sv, mi, me, d⟩,
        ⟨ra, le, ir, crr, some 0, cashr, ygr, ycr, ychr, mgr, mcr, mchr, ogr, ocr, ochr⟩, sal, lp⟩ =
      run_simulation ⟨⟨a, sv, mi, me, d⟩,
        ⟨ra, le, ir, crr, none, cashr, ygr, ycr, ychr, mgr, mcr, mchr, ogr, ocr, ochr⟩, sal, lp⟩) ∧
    cash_ret ⟨ra, le, ir, crr, grr, some 0, ygr, ycr, ychr, mgr, mcr, mchr, ogr, ocr, ochr⟩ = 0 ∧
    cash_ret ⟨ra, le, ir, crr, grr, none, ygr, ycr, ychr, mgr, mcr, mchr, ogr, ocr, ochr⟩ = 1 / 50 ∧
    (∀ (cons growth gr cr hr : ℚ) (m : ℕ) (s : SimState),
      (accumMonth 0 cons growth gr cr hr m s).1.cash_amt =
        s.cash_amt +
          ((s.monthly_income - s.monthly_house_payment) - s.monthly_expense) * hr) := by
  refine ⟨rfl, rfl, rfl, rfl, rfl, rfl, rfl, rfl, fun cons growth gr cr hr m s => ?_⟩
  show s.cash_amt * (1 + 0 / 12) + _ = _
  norm_num

/-- An accumulation month leaves house payment, expense, income and age
unchanged (they change only at year boundaries or via events). -/
theorem runMonths_accum_fixed (cash_r c g gr cr hr : ℚ) (k : ℕ) :
    ∀ (m : ℕ) (s : SimState),
    (runMonths (accumMonth cash_r c g gr cr hr) m k s).1.monthly_house_payment =
        s.monthly_house_payment ∧
      (runMonths (accumMonth cash_r c g gr cr hr) m k s).1.monthly_expense =
        s.monthly_expense ∧
      (runMonths (accumMonth cash_r c g gr cr hr) m k s).1.monthly_income =
        s.monthly_income ∧
      (runMonths (accumMonth cash_r c g gr cr hr) m k s).1.cur_age = s.cur_age := by
  induction k with
  | zero => intro m s; exact ⟨rfl, rfl, rfl, rfl⟩
  | succ n ih =>
      intro m s
      exact ih (m + 1) ((accumMonth cash_r c g gr cr hr m s).1)

/-- While the house payment is positive and covered by the remaining debt,
`k` accumulation months reduce the debt by exactly `k` payments. -/
theorem runMonths_accum_debt (cash_r c g gr cr hr : ℚ) (k : ℕ) :
    ∀ (m : ℕ) (s : SimState), 0 < s.monthly_house_payment →
    (k : ℚ) * s.monthly_house_payment ≤ s.current_debt →
    (runMonths (accumMonth cash_r c g gr cr hr) m k s).1.current_debt =
      s.current_debt - (k : ℚ) * s.monthly_house_payment := by
  induction k with
  | zero =>
      intro m s hp hd
      show s.current_debt = s.current_debt - ((0 : ℕ) : ℚ) * s.monthly_house_payment
      push_cast
      ring
  | succ n ih =>
      intro m s hp hd
      have hcast : ((n + 1 : ℕ) : ℚ) = (n : ℚ) + 1 := by push_cast; ring
      rw [hcast] at hd
      have hn0 : (0 : ℚ) ≤ (n : ℚ) := Nat.cast_nonneg n
      have hple : s.monthly_house_payment ≤ s.current_debt := by nlinarith
      have hstep : (accumMonth cash_r c g gr cr hr m s).1.current_debt =
          s.current_debt - s.monthly_house_payment := by
        show (if 0 < s.current_debt ∧ 0 < s.monthly_house_payment then
            max 0 (s.current_debt - s.monthly_house_payment)
          else s.current_debt) = s.current_debt - s.monthly_house_payment
        rw [if_pos ⟨lt_of_lt_of_le hp hple, hp⟩,
          max_eq_right (sub_nonneg.mpr hple)]
      have ih' := ih (m + 1) ((accumMonth cash_r c g gr cr hr m s).1)
        (by show 0 < s.monthly_house_payment; exact hp)
        (by
          show (n : ℚ) * s.monthly_house_payment ≤
            (accumMonth cash_r c g gr cr hr m s).1.current_debt
          rw [hstep]; linarith)
      refine ih'.trans ?_
      rw [hstep]
      show s.current_debt - s.monthly_house_payment -
          (n : ℚ) * s.monthly_house_payment = _
      rw [hcast]
      ring

/-- Snapshot `i` (0-based) of a covered accumulation month run records debt
`initial − (i+1) × payment`. -/
theorem runMonths_accum_snap_debt (cash_r c g gr cr hr : ℚ) (k : ℕ) :
    ∀ (m i : ℕ) (s : SimState), i < k → 0 < s.monthly_house_payment →
    (k : ℚ) * s.monthly_house_payment ≤ s.current_debt →
    (((runMonths (accumMonth cash_r c g gr cr hr) m k s).2).get? i).map
        MonthlySnapshot.debt =
      some (s.current_debt - ((i + 1 : ℕ) : ℚ) * s.monthly_house_payment) := by
  induction k with
  | zero => intro m i s hik; exact absurd hik (Nat.not_lt_zero i)
  | succ n ih =>
      intro m i s hik hp hd
      have hcast : ((n + 1 : ℕ) : ℚ) = (n : ℚ) + 1 := by push_cast; ring
      rw [hcast] at hd
      have hn0 : (0 : ℚ) ≤ (n : ℚ) := Nat.cast_nonneg n
      have hple : s.monthly_house_payment ≤ s.current_debt := by nlinarith
      have hstep : (accumMonth cash_r c g gr cr hr m s).1.current_debt =
          s.current_debt - s.monthly_house_payment := by
        show (if 0 < s.current_debt ∧ 0 < s.monthly_house_payment then
            max 0 (s.current_debt - s.monthly_house_payment)
          else s.current_debt) = s.current_debt - s.monthly_house_payment
        rw [if_pos ⟨lt_of_lt_of_le hp hple, hp⟩,
          max_eq_right (sub_nonneg.mpr hple)]
      cases i with
      | zero =>
          show some ((accumMonth cash_r c g gr cr hr m s).2.debt) = _
          have hsnap : (accumMonth cash_r c g gr cr hr m s).2.debt =
              (accumMonth cash_r c g gr cr hr m s).1.current_debt := rfl
          rw [hsnap, hstep]
          norm_num
      | succ j =>
          have ih' := ih (m + 1) j ((accumMonth cash_r c g gr cr hr m s).1)
            (by omega) (by show 0 < s.monthly_house_payment; exact hp)
            (by
              show (n : ℚ) * s.monthly_house_payment ≤
                (accumMonth cash_r c g gr cr hr m s).1.current_debt
              rw [hstep]; linarith)
          refine ih'.trans ?_
          rw [hstep]
          show some (s.current_debt - s.monthly_house_payment -
              ((j + 1 : ℕ) : ℚ) * s.monthly_house_payment) = _
          congr 1
          push_cast
          ring

/-- A year with no life-planning event at its age reduces the debt by 12
payments, keeps the payment, and advances the age by one (house payment
positive and covered throughout). -/
theorem accumYear_no_event (ratios : ℤ → ℚ × ℚ × ℚ) (sg : ℚ)
    (lp : ℤ → List LifeEvent) (infl c g cr : ℚ) (s : SimState)
    (hlp : lp s.cur_age = []) (hp : 0 < s.monthly_house_payment)
    (hd : 12 * s.monthly_house_payment ≤ s.current_debt) :
    (accumYear ratios sg lp infl c g cr s).1.current_debt =
        s.current_debt - 12 * s.monthly_house_payment ∧
      (accumYear ratios sg lp infl c g cr s).1.monthly_house_payment =
        s.monthly_house_payment ∧
      (accumYear ratios sg lp infl c g cr s).1.cur_age = s.cur_age + 1 := by
  have h0 : applyHouseEvents (lp s.cur_age) s = (s, []) := by rw [hlp]; rfl
  have hd' : ((12 : ℕ) : ℚ) * s.monthly_house_payment ≤ s.current_debt := by
    push_cast; exact hd
  simp only [accumYear, h0]
  refine ⟨?_, ?_, ?_⟩
  · rw [runMonths_accum_debt cr c g _ _ _ 12 0 s hp hd']
    push_cast
    ring
  · exact (runMonths_accum_fixed cr c g _ _ _ 12 0 s).1
  · rw [(runMonths_accum_fixed cr c g _ _ _ 12 0 s).2.2.2]

/-- `k` consecutive event-free years reduce the debt by `12k` payments,
keep the payment, and advance the age by `k`. -/
theorem runAccumYears_no_event_debt (ratios : ℤ → ℚ × ℚ × ℚ) (sg : ℚ)
    (lp : ℤ → List LifeEvent) (infl c g cr : ℚ) (k : ℕ) :
    ∀ s : SimState, (∀ i : ℕ, i < k → lp (s.cur_age + (i : ℤ)) = []) →
    0 < s.monthly_house_payment →
    12 * (k : ℚ) * s.monthly_house_payment ≤ s.current_debt →
    (runAccumYears ratios sg lp infl c g cr k s).1.current_debt =
        s.current_debt - 12 * (k : ℚ) * s.monthly_house_payment ∧
      (runAccumYears ratios sg lp infl c g cr k s).1.monthly_house_payment =
        s.monthly_house_payment ∧
      (runAccumYears ratios sg lp infl c g cr k s).1.cur_age =
        s.cur_age + (k : ℤ) := by
  induction k with
  | zero =>
      intro s hlp hp hd
      refine ⟨?_, rfl, ?_⟩
      · show s.current_debt = s.current_debt - 12 * ((0 : ℕ) : ℚ) * _
        push_cast; ring
      · show s.cur_age = s.cur_age + ((0 : ℕ) : ℤ)
        push_cast; ring
  | succ n ih =>
      intro s hlp hp hd
      have hcast : ((n + 1 : ℕ) : ℚ) = (n : ℚ) + 1 := by push_cast; ring
      rw [hcast] at hd
      have hnn : (0 : ℚ) ≤ (n : ℚ) := Nat.cast_nonneg n
      have hd1 : 12 * s.monthly_house_payment ≤ s.current_debt := by nlinarith
      have hy := accumYear_no_event ratios sg lp infl c g cr s
        (by have := hlp 0 (by omega); simpa using this) hp hd1
      have ih' := ih ((accumYear ratios sg lp infl c g cr s).1)
        (by
          intro i hi
          rw [hy.2.2]
          have := hlp (i + 1) (by omega)
          rw [show s.cur_age + 1 + (i : ℤ) = s.cur_age + ((i + 1 : ℕ) : ℤ) by
            push_cast; ring]
          exact this)
        (by rw [hy.2.1]; exact hp)
        (by
          rw [hy.2.1, hy.1]
          nlinarith)
      refine ⟨ih'.1.trans ?_, ih'.2.1.trans hy.2.1, ih'.2.2.trans ?_⟩
      · rw [hy.1, hy.2.1, hcast]; ring
      · rw [hy.2.2]
        push_cast; ring

/-- Snapshot `12·mm + i` of the accumulation phase is snapshot `i` of year
`mm`, run from the state after `mm` years. -/
theorem runAccumYears_get (ratios : ℤ → ℚ × ℚ × ℚ) (sg : ℚ)
    (lp : ℤ → List LifeEvent) (infl c g cr : ℚ) :
    ∀ (mm k : ℕ) (s : SimState) (i : ℕ), mm < k → i < 12 →
    (runAccumYears ratios sg lp infl c g cr k s).2.1.get? (12 * mm + i) =
      (accumYear ratios sg lp infl c g cr
        ((runAccumYears ratios sg lp infl c g cr mm s).1)).2.1.get? i := by
  intro mm
  induction mm with
  | zero =>
      intro k s i hmk hi
      cases k with
      | zero => omega
      | succ n =>
          show ((accumYear ratios sg lp infl c g cr s).2.1 ++
            (runAccumYears ratios sg lp infl c g cr n
              ((accumYear ratios sg lp infl c g cr s).1)).2.1).get?
                (12 * 0 + i) = _
          rw [show 12 * 0 + i = i from by omega,
            List.get?_append (by rw [accumYear_snaps_length]; omega)]
          rfl
  | succ m ihm =>
      intro k s i hmk hi
      cases k with
      | zero => omega
      | succ n =>
          show ((accumYear ratios sg lp infl c g cr s).2.1 ++
            (runAccumYears ratios sg lp infl c g cr n
              ((accumYear ratios sg lp infl c g cr s).1)).2.1).get?
                (12 * (m + 1) + i) = _
          rw [List.get?_append_right (by rw [accumYear_snaps_length]; omega)]
          rw [accumYear_snaps_length,
            show 12 * (m + 1) + i - 12 = 12 * m + i from by omega]
          exact ihm n ((accumYear ratios sg lp infl c g cr s).1) i
            (by omega) hi

set_option maxRecDepth 40000 in
/-- In the `P4` run, month `12·29 + i` of the simulation (the 30th year
after the age-30 purchase) records debt `400000 − (i+1) × 100000/3`. -/
theorem P4_debt_snapshot (i : ℕ) (hi : i < 12) :
    ((run_simulation P4).financial_results.get? (12 * 29 + i)).map
        MonthlySnapshot.debt =
      some (400000 - ((i + 1 : ℕ) : ℚ) * (100000 / 3)) := by
  have hfr : (run_simulation P4).financial_results =
      (runAccumYears (allocationRatios P4.investment_config) 0 P4.life_planning
        (3 / 100) (3 / 100) (7 / 100) 0 30 ⟨30, 0, 0, 0, 0, 0, 0, 0⟩).2.1 :=
    List.append_nil _
  have hst1 : (accumYear (allocationRatios P4.investment_config) 0
      P4.life_planning (3 / 100) (3 / 100) (7 / 100) 0
      ⟨30, 0, 0, 0, 0, 0, 0, 0⟩).1 =
      ⟨31, 0, 0, 11600000, 100000 / 3, 0, 0, -400000⟩ := by decide
  have hev : ∀ j : ℕ, j < 28 →
      P4.life_planning ((⟨31, 0, 0, 11600000, 100000 / 3, 0, 0, -400000⟩ :
        SimState).cur_age + (j : ℤ)) = [] := by
    intro j hj
    show (if (31 + (j : ℤ)) = 30 then
        [LifeEvent.buyHouse { house_price := some 15000000,
                              down_payment_ratio := some 20,
                              loan_rate := some (3 / 100),
                              loan_years := some 30 }]
      else []) = []
    rw [if_neg (by omega)]
  have h28 := runAccumYears_no_event_debt (allocationRatios P4.investment_config)
    0 P4.life_planning (3 / 100) (3 / 100) (7 / 100) 0 28
    ⟨31, 0, 0, 11600000, 100000 / 3, 0, 0, -400000⟩ hev
    (by show (0 : ℚ) < 100000 / 3; norm_num)
    (by show (12 : ℚ) * ((28 : ℕ) : ℚ) * (100000 / 3) ≤ 11600000
        push_cast; norm_num)
  have e1 : (runAccumYears (allocationRatios P4.investment_config) 0
      P4.life_planning (3 / 100) (3 / 100) (7 / 100) 0 29
      ⟨30, 0, 0, 0, 0, 0, 0, 0⟩).1 =
      (runAccumYears (allocationRatios P4.investment_config) 0 P4.life_planning
        (3 / 100) (3 / 100) (7 / 100) 0 28
        ⟨31, 0, 0, 11600000, 100000 / 3, 0, 0, -400000⟩).1 := by
    show (runAccumYears (allocationRatios P4.investment_config) 0
        P4.life_planning (3 / 100) (3 / 100) (7 / 100) 0 28
        ((accumYear (allocationRatios P4.investment_config) 0 P4.life_planning
          (3 / 100) (3 / 100) (7 / 100) 0 ⟨30, 0, 0, 0, 0, 0, 0, 0⟩).1)).1 = _
    rw [hst1]
  have hA : (runAccumYears (allocationRatios P4.investment_config) 0
      P4.life_planning (3 / 100) (3 / 100) (7 / 100) 0 29
      ⟨30, 0, 0, 0, 0, 0, 0, 0⟩).1.current_debt = 400000 := by
    rw [e1, h28.1]
    show (11600000 : ℚ) - 12 * ((28 : ℕ) : ℚ) * (100000 / 3) = 400000
    push_cast; norm_num
  have hP : (runAccumYears (allocationRatios P4.investment_config) 0
      P4.life_planning (3 / 100) (3 / 100) (7 / 100) 0 29
      ⟨30, 0, 0, 0, 0, 0, 0, 0⟩).1.monthly_house_payment = 100000 / 3 := by
    rw [e1, h28.2.1]
  have hAge : (runAccumYears (allocationRatios P4.investment_config) 0
      P4.life_planning (3 / 100) (3 / 100) (7 / 100) 0 29
      ⟨30, 0, 0, 0, 0, 0, 0, 0⟩).1.cur_age = 59 := by
    rw [e1, h28.2.2]
    show (31 : ℤ) + ((28 : ℕ) : ℤ) = 59
    decide
  rw [hfr, runAccumYears_get (allocationRatios P4.investment_config) 0
    P4.life_planning (3 / 100) (3 / 100) (7 / 100) 0 29 30
    ⟨30, 0, 0, 0, 0, 0, 0, 0⟩ i (by omega) hi]
  have hlp59 : P4.life_planning ((runAccumYears
      (allocationRatios P4.investment_config) 0 P4.life_planning (3 / 100)
      (3 / 100) (7 / 100) 0 29 ⟨30, 0, 0, 0, 0, 0, 0, 0⟩).1.cur_age) = [] := by
    rw [hAge]
    decide
  have h0 : applyHouseEvents (P4.life_planning ((runAccumYears
      (allocationRatios P4.investment_config) 0 P4.life_planning (3 / 100)
      (3 / 100) (7 / 100) 0 29 ⟨30, 0, 0, 0, 0, 0, 0, 0⟩).1.cur_age))
      ((runAccumYears (allocationRatios P4.investment_config) 0 P4.life_planning
        (3 / 100) (3 / 100) (7 / 100) 0 29 ⟨30, 0, 0, 0, 0, 0, 0, 0⟩).1) =
      ((runAccumYears (allocationRatios P4.investment_config) 0 P4.life_planning
        (3 / 100) (3 / 100) (7 / 100) 0 29 ⟨30, 0, 0, 0, 0, 0, 0, 0⟩).1, []) := by
    rw [hlp59]; rfl
  simp only [accumYear, h0]
  rw [runMonths_accum_snap_debt 0 (3 / 100) (7 / 100) _ _ _ 12 0 i _ hi
    (by rw [hP]; norm_num) (by rw [hP, hA]; push_cast; norm_num)]
  rw [hA, hP]

set_option maxRecDepth 40000 in
/-- C4: a house-purchase event sets the debt to
`price × (1 − down-payment fraction)` — replacing any prior debt — and the
monthly payment to `principal / (term × 12)`; a covered positive payment
decreases the debt by exactly the payment each month; and in the concrete
age-30 scenario (price 15,000,000, 20% down, 30-year term) the engine logs
debt 12,000,000 and payment 100000/3, records debt
`12000000 − 100000/3` in the purchase month, and debt reaches exactly 0 at
the 360th month after the purchase (snapshot 359) and not before
(snapshot 358 still shows 100000/3). -/
theorem C4_house_purchase :
    (∀ (hd : HouseData) (s : SimState) (logs : List LogEntry),
      (applyHouseEvent (.buyHouse hd) (s, logs)).1.current_debt =
          orD hd.house_price 0 * (1 - hd.down_payment_ratio.getD 20 / 100) ∧
        (applyHouseEvent (.buyHouse hd) (s, logs)).1.monthly_house_payment =
          calculate_monthly_payment
            (orD hd.house_price 0 * (1 - hd.down_payment_ratio.getD 20 / 100))
            (hd.loan_rate.getD (3 / 100)) (hd.loan_years.getD 30)) ∧
    calculate_monthly_payment 12000000 (3 / 100) 30 = 100000 / 3 ∧
    (∀ (cash_r c g gr cr hr : ℚ) (m : ℕ) (s : SimState),
      0 < s.monthly_house_payment →
      s.monthly_house_payment ≤ s.current_debt →
      (accumMonth cash_r c g gr cr hr m s).1.current_debt =
        s.current_debt - s.monthly_house_payment) ∧
    (run_simulation P4).event_log.get? 2 =
      some (.buyHouseLog 30 15000000 12000000 (100000 / 3)) ∧
    ((run_simulation P4).financial_results.get? 0).map MonthlySnapshot.debt =
      some (12000000 - 100000 / 3) ∧
    ((run_simulation P4).financial_results.get? 358).map MonthlySnapshot.debt =
      some (100000 / 3) ∧
    ((run_simulation P4).financial_results.get? 359).map MonthlySnapshot.debt =
      some 0 := by
  refine ⟨fun hd s logs => ⟨rfl, rfl⟩, by norm_num [calculate_monthly_payment],
    fun cash_r c g gr cr hr m s hp hd => ?_, by decide, by decide, ?_, ?_⟩
  · show (if 0 < s.current_debt ∧ 0 < s.monthly_house_payment then
        max 0 (s.current_debt - s.monthly_house_payment)
      else s.current_debt) = s.current_debt - s.monthly_house_payment
    rw [if_pos ⟨lt_of_lt_of_le hp hd, hp⟩, max_eq_right (sub_nonneg.mpr hd)]
  · rw [show (358 : ℕ) = 12 * 29 + 10 from by omega]
    refine (P4_debt_snapshot 10 (by omega)).trans ?_
    norm_num
  · rw [show (359 : ℕ) = 12 * 29 + 11 from by omega]
    refine (P4_debt_snapshot 11 (by omega)).trans ?_
    norm_num

/-- Witness for C4's monthly-decrement clause at a state with debt 10 and
payment 2. -/
theorem C4_house_purchase_witness :
    (0 : ℚ) < 2 ∧ (2 : ℚ) ≤ 10 ∧
    (accumMonth 0 0 0 0 0 1 0 ⟨40, 5, 3, 10, 2, 0, 0, 0⟩).1.current_debt =
      10 - 2 :=
  ⟨by norm_num, by norm_num,
   C4_house_purchase.2.2.1 0 0 0 0 0 1 0 ⟨40, 5, 3, 10, 2, 0, 0, 0⟩
     (by show (0 : ℚ) < 2; norm_num) (by show (2 : ℚ) ≤ 10; norm_num)⟩

section FireScan

variable (le ca : ℤ) (E0 c g : ℚ)

/-- What one scan step does to the growing-annuity achievement age: it is
set to this entry's age exactly when it was still unset and the entry
qualifies; otherwise it is untouched. -/
theorem step_grow_eq (acc : ScanAcc) (e : ℤ × YearEndSnapshot) :
    (fireScanStep le ca E0 c g acc e).fire_age_growing =
      if acc.fire_age_growing = none ∧ qualifiesGrowing le ca E0 c g e
      then some e.1 else acc.fire_age_growing := by
  by_cases h0 : le - e.1 ≤ 0
  · simp only [fireScanStep, if_pos h0, qualifiesGrowing]
    rw [if_neg (by rintro ⟨-, hq, -⟩; exact hq h0)]
  · simp only [fireScanStep, if_neg h0, qualifiesGrowing]
    split_ifs <;> simp_all

/-- What one scan step does to the 25×-rule achievement age, independent of
the growing-annuity field. -/
theorem step_trad_eq (acc : ScanAcc) (e : ℤ × YearEndSnapshot) :
    (fireScanStep le ca E0 c g acc e).fire_age_traditional =
      if acc.fire_age_traditional = none ∧ qualifiesTraditional le ca E0 g e
      then some e.1 else acc.fire_age_traditional := by
  by_cases h0 : le - e.1 ≤ 0
  · simp only [fireScanStep, if_pos h0, qualifiesTraditional]
    rw [if_neg (by rintro ⟨-, hq, -⟩; exact hq h0)]
  · simp only [fireScanStep, if_neg h0, qualifiesTraditional]
    split_ifs <;> simp_all

/-- Once set, the growing-annuity achievement age survives the rest of the
fold. -/
theorem foldl_grow_some (es : List (ℤ × YearEndSnapshot)) :
    ∀ (acc : ScanAcc) (a : ℤ), acc.fire_age_growing = some a →
    (es.foldl (fireScanStep le ca E0 c g) acc).fire_age_growing = some a := by
  induction es with
  | nil => intro acc a h; exact h
  | cons e es ih =>
      intro acc a h
      rw [List.foldl_cons]
      refine ih _ a ?_
      have hcond : ¬(acc.fire_age_growing = none ∧
          qualifiesGrowing le ca E0 c g e) := by
        rintro ⟨hn, -⟩
        rw [h] at hn
        exact Option.noConfusion hn
      rw [step_grow_eq, if_neg hcond]
      exact h

/-- Once set, the 25×-rule achievement age survives the rest of the fold. -/
theorem foldl_trad_some (es : List (ℤ × YearEndSnapshot)) :
    ∀ (acc : ScanAcc) (a : ℤ), acc.fire_age_traditional = some a →
    (es.foldl (fireScanStep le ca E0 c g) acc).fire_age_traditional = some a := by
  induction es with
  | nil => intro acc a h; exact h
  | cons e es ih =>
      intro acc a h
      rw [List.foldl_cons]
      refine ih _ a ?_
      have hcond : ¬(acc.fire_age_traditional = none ∧
          qualifiesTraditional le ca E0 g e) := by
        rintro ⟨hn, -⟩
        rw [h] at hn
        exact Option.noConfusion hn
      rw [step_trad_eq, if_neg hcond]
      exact h

/-- The growing-annuity achievement age stays unset through the fold iff no
entry qualifies. -/
theorem foldl_grow_none_iff (es : List (ℤ × YearEndSnapshot)) :
    ∀ acc : ScanAcc, acc.fire_age_growing = none →
    ((es.foldl (fireScanStep le ca E0 c g) acc).fire_age_growing = none ↔
      ∀ e ∈ es, ¬qualifiesGrowing le ca E0 c g e) := by
  induction es with
  | nil => intro acc h; simp [h]
  | cons e es ih =>
      intro acc h
      rw [List.foldl_cons, List.forall_mem_cons]
      by_cases hq : qualifiesGrowing le ca E0 c g e
      · have hstep : (fireScanStep le ca E0 c g acc e).fire_age_growing =
            some e.1 := by rw [step_grow_eq, if_pos ⟨h, hq⟩]
        rw [foldl_grow_some le ca E0 c g es _ e.1 hstep]
        simp [hq]
      · have hstep : (fireScanStep le ca E0 c g acc e).fire_age_growing =
            none := by
          rw [step_grow_eq, if_neg (by rintro ⟨-, hq2⟩; exact hq hq2)]
          exact h
        rw [ih _ hstep]
        simp [hq]

/-- The 25×-rule achievement age stays unset through the fold iff no entry
qualifies. -/
theorem foldl_trad_none_iff (es : List (ℤ × YearEndSnapshot)) :
    ∀ acc : ScanAcc, acc.fire_age_traditional = none →
    ((es.foldl (fireScanStep le ca E0 c g) acc).fire_age_traditional = none ↔
      ∀ e ∈ es, ¬qualifiesTraditional le ca E0 g e) := by
  induction es with
  | nil => intro acc h; simp [h]
  | cons e es ih =>
      intro acc h
      rw [List.foldl_cons, List.forall_mem_cons]
      by_cases hq : qualifiesTraditional le ca E0 g e
      · have hstep : (fireScanStep le ca E0 c g acc e).fire_age_traditional =
            some e.1 := by rw [step_trad_eq, if_pos ⟨h, hq⟩]
        rw [foldl_trad_some le ca E0 c g es _ e.1 hstep]
        simp [hq]
      · have hstep : (fireScanStep le ca E0 c g acc e).fire_age_traditional =
            none := by
          rw [step_trad_eq, if_neg (by rintro ⟨-, hq2⟩; exact hq hq2)]
          exact h
        rw [ih _ hstep]
        simp [hq]

/-- On an age-sorted list, a recorded growing-annuity achievement age is a
qualifying age that is ≤ every qualifying age. -/
theorem foldl_grow_some_min (es : List (ℤ × YearEndSnapshot)) :
    ∀ acc : ScanAcc, List.Pairwise (fun p q => p.1 ≤ q.1) es →
    acc.fire_age_growing = none → ∀ a : ℤ,
    (es.foldl (fireScanStep le ca E0 c g) acc).fire_age_growing = some a →
    (∃ d, (a, d) ∈ es ∧ qualifiesGrowing le ca E0 c g (a, d)) ∧
      ∀ e ∈ es, qualifiesGrowing le ca E0 c g e → a ≤ e.1 := by
  induction es with
  | nil =>
      intro acc _ h a habs
      rw [List.foldl_nil, h] at habs
      exact Option.noConfusion habs
  | cons e es ih =>
      intro acc hpw h a hsome
      rcases List.pairwise_cons.mp hpw with ⟨hhead, htail⟩
      rw [List.foldl_cons] at hsome
      by_cases hq : qualifiesGrowing le ca E0 c g e
      · have hstep : (fireScanStep le ca E0 c g acc e).fire_age_growing =
            some e.1 := by rw [step_grow_eq, if_pos ⟨h, hq⟩]
        have hkeep := foldl_grow_some le ca E0 c g es _ e.1 hstep
        rw [hkeep] at hsome
        have ha : e.1 = a := Option.some.inj hsome
        constructor
        · refine ⟨e.2, ?_, ?_⟩
          · rw [← ha, Prod.mk.eta]; exact List.mem_cons_self e es
          · rw [← ha, Prod.mk.eta]; exact hq
        · intro x hx hqx
          rcases List.mem_cons.mp hx with rfl | hx'
          · rw [← ha]
          · rw [← ha]; exact hhead x hx'
      · have hstep : (fireScanStep le ca E0 c g acc e).fire_age_growing =
            none := by
          rw [step_grow_eq, if_neg (by rintro ⟨-, hq2⟩; exact hq hq2)]
          exact h
        have ih' := ih _ htail hstep a hsome
        constructor
        · obtain ⟨d, hd, hqd⟩ := ih'.1
          exact ⟨d, List.mem_cons_of_mem e hd, hqd⟩
        · intro x hx hqx
          rcases List.mem_cons.mp hx with rfl | hx'
          · exact absurd hqx hq
          · exact ih'.2 x hx' hqx

/-- On an age-sorted list, a recorded 25×-rule achievement age is a
qualifying age that is ≤ every qualifying age. -/
theorem foldl_trad_some_min (es : List (ℤ × YearEndSnapshot)) :
    ∀ acc : ScanAcc, List.Pairwise (fun p q => p.1 ≤ q.1) es →
    acc.fire_age_traditional = none → ∀ a : ℤ,
    (es.foldl (fireScanStep le ca E0 c g) acc).fire_age_traditional = some a →
    (∃ d, (a, d) ∈ es ∧ qualifiesTraditional le ca E0 g (a, d)) ∧
      ∀ e ∈ es, qualifiesTraditional le ca E0 g e → a ≤ e.1 := by
  induction es with
  | nil =>
      intro acc _ h a habs
      rw [List.foldl_nil, h] at habs
      exact Option.noConfusion habs
  | cons e es ih =>
      intro acc hpw h a hsome
      rcases List.pairwise_cons.mp hpw with ⟨hhead, htail⟩
      rw [List.foldl_cons] at hsome
      by_cases hq : qualifiesTraditional le ca E0 g e
      · have hstep : (fireScanStep le ca E0 c g acc e).fire_age_traditional =
            some e.1 := by rw [step_trad_eq, if_pos ⟨h, hq⟩]
        have hkeep := foldl_trad_some le ca E0 c g es _ e.1 hstep
        rw [hkeep] at hsome
        have ha : e.1 = a := Option.some.inj hsome
        constructor
        · refine ⟨e.2, ?_, ?_⟩
          · rw [← ha, Prod.mk.eta]; exact List.mem_cons_self e es
          · rw [← ha, Prod.mk.eta]; exact hq
        · intro x hx hqx
          rcases List.mem_cons.mp hx with rfl | hx'
          · rw [← ha]
          · rw [← ha]; exact hhead x hx'
      · have hstep : (fireScanStep le ca E0 c g acc e).fire_age_traditional =
            none := by
          rw [step_trad_eq, if_neg (by rintro ⟨-, hq2⟩; exact hq hq2)]
          exact h
        have ih' := ih _ htail hstep a hsome
        constructor
        · obtain ⟨d, hd, hqd⟩ := ih'.1
          exact ⟨d, List.mem_cons_of_mem e hd, hqd⟩
        · intro x hx hqx
          rcases List.mem_cons.mp hx with rfl | hx'
          · exact absurd hqx hq
          · exact ih'.2 x hx' hqx

end FireScan

/-- C5: `check_fire_achievement` scans ages in ascending order, skips ages
with no remaining life years, and for each of the two formulas
independently records the smallest qualifying age (null when no simulated
age qualifies).  `qualifiesGrowing`/`qualifiesTraditional` package "not
skipped and net worth ≥ that formula's age-specific inflation-compounded
target". -/
theorem C5_fire_achievement_scan (l : List (ℤ × YearEndSnapshot))
    (ps : PlayerStatus) (inv : InvestmentConfig) :
    ((check_fire_achievement l ps inv).fire_age_growing = none ↔
      ∀ e ∈ l, ¬qualifiesGrowing (orDZ inv.life_expectancy 85) (orDZ ps.age 25)
        (orD ps.monthly_expense 0) (orD inv.conservative_return_rate (3 / 100))
        (orD inv.inflation_rate (3 / 100)) e) ∧
    (∀ a : ℤ, (check_fire_achievement l ps inv).fire_age_growing = some a →
      (∃ d, (a, d) ∈ l ∧ qualifiesGrowing (orDZ inv.life_expectancy 85)
          (orDZ ps.age 25) (orD ps.monthly_expense 0)
          (orD inv.conservative_return_rate (3 / 100))
          (orD inv.inflation_rate (3 / 100)) (a, d)) ∧
        ∀ e ∈ l, qualifiesGrowing (orDZ inv.life_expectancy 85)
          (orDZ ps.age 25) (orD ps.monthly_expense 0)
          (orD inv.conservative_return_rate (3 / 100))
          (orD inv.inflation_rate (3 / 100)) e → a ≤ e.1) ∧
    ((check_fire_achievement l ps inv).fire_age_traditional = none ↔
      ∀ e ∈ l, ¬qualifiesTraditional (orDZ inv.life_expectancy 85)
        (orDZ ps.age 25) (orD ps.monthly_expense 0)
        (orD inv.inflation_rate (3 / 100)) e) ∧
    (∀ a : ℤ, (check_fire_achievement l ps inv).fire_age_traditional = some a →
      (∃ d, (a, d) ∈ l ∧ qualifiesTraditional (orDZ inv.life_expectancy 85)
          (orDZ ps.age 25) (orD ps.monthly_expense 0)
          (orD inv.inflation_rate (3 / 100)) (a, d)) ∧
        ∀ e ∈ l, qualifiesTraditional (orDZ inv.life_expectancy 85)
          (orDZ ps.age 25) (orD ps.monthly_expense 0)
          (orD inv.inflation_rate (3 / 100)) e → a ≤ e.1) := by
  have hpw : List.Pairwise (fun p q : ℤ × YearEndSnapshot => p.1 ≤ q.1)
      (sortedEntries l) := by
    have h := @List.sorted_mergeSort _
      (fun a b : ℤ × YearEndSnapshot => decide (a.1 ≤ b.1))
      (fun a b c hab hbc => by
        simp only [decide_eq_true_eq] at *
        exact le_trans hab hbc)
      (fun a b => by
        simp only [Bool.or_eq_true, decide_eq_true_eq]
        exact le_total a.1 b.1)
      l
    exact h.imp (fun hab => by simpa using hab)
  have hgres : (check_fire_achievement l ps inv).fire_age_growing =
      ((sortedEntries l).foldl
        (fireScanStep (orDZ inv.life_expectancy 85) (orDZ ps.age 25)
          (orD ps.monthly_expense 0) (orD inv.conservative_return_rate (3 / 100))
          (orD inv.inflation_rate (3 / 100)))
        ⟨none, none, []⟩).fire_age_growing := rfl
  have htres : (check_fire_achievement l ps inv).fire_age_traditional =
      ((sortedEntries l).foldl
        (fireScanStep (orDZ inv.life_expectancy 85) (orDZ ps.age 25)
          (orD ps.monthly_expense 0) (orD inv.conservative_return_rate (3 / 100))
          (orD inv.inflation_rate (3 / 100)))
        ⟨none, none, []⟩).fire_age_traditional := rfl
  refine ⟨?_, ?_, ?_, ?_⟩
  · rw [hgres, foldl_grow_none_iff _ _ _ _ _ (sortedEntries l)
      ⟨none, none, []⟩ rfl]
    constructor
    · intro hh e he; exact hh e (List.mem_mergeSort.mpr he)
    · intro hh e he; exact hh e (List.mem_mergeSort.mp he)
  · intro a ha
    rw [hgres] at ha
    have h := foldl_grow_some_min _ _ _ _ _ (sortedEntries l)
      ⟨none, none, []⟩ hpw rfl a ha
    constructor
    · obtain ⟨d, hd, hq⟩ := h.1
      exact ⟨d, List.mem_mergeSort.mp hd, hq⟩
    · intro e he hq
      exact h.2 e (List.mem_mergeSort.mpr he) hq
  · rw [htres, foldl_trad_none_iff _ _ _ _ _ (sortedEntries l)
      ⟨none, none, []⟩ rfl]
    constructor
    · intro hh e he; exact hh e (List.mem_mergeSort.mpr he)
    · intro hh e he; exact hh e (List.mem_mergeSort.mp he)
  · intro a ha
    rw [htres] at ha
    have h := foldl_trad_some_min _ _ _ _ _ (sortedEntries l)
      ⟨none, none, []⟩ hpw rfl a ha
    constructor
    · obtain ⟨d, hd, hq⟩ := h.1
      exact ⟨d, List.mem_mergeSort.mp hd, hq⟩
    · intro e he hq
      exact h.2 e (List.mem_mergeSort.mpr he) hq

/-- Witness for C5: a single age-30 entry with net worth 100000 qualifies
for both formulas, and the function reports 30 for both. -/
theorem C5_fire_achievement_scan_witness :
    (check_fire_achievement [((30 : ℤ), ⟨0, 0, 0, 0, 0, 0, 0, 100000, 0, 0⟩)]
        { noPlayer with age := some 30, monthly_expense := some 100 }
        noInvest).fire_age_growing = some 30 ∧
    (∃ d, ((30 : ℤ), d) ∈ [((30 : ℤ), (⟨0, 0, 0, 0, 0, 0, 0, 100000, 0, 0⟩ :
          YearEndSnapshot))] ∧
        qualifiesGrowing (orDZ noInvest.life_expectancy 85)
          (orDZ ({ noPlayer with age := some 30,
                                 monthly_expense := some 100 } : PlayerStatus).age 25)
          (orD ({ noPlayer with age := some 30,
                                monthly_expense := some 100 } :
            PlayerStatus).monthly_expense 0)
          (orD noInvest.conservative_return_rate (3 / 100))
          (orD noInvest.inflation_rate (3 / 100)) (30, d)) ∧
      ∀ e ∈ [((30 : ℤ), (⟨0, 0, 0, 0, 0, 0, 0, 100000, 0, 0⟩ :
          YearEndSnapshot))],
        qualifiesGrowing (orDZ noInvest.life_expectancy 85)
          (orDZ ({ noPlayer with age := some 30,
                                 monthly_expense := some 100 } : PlayerStatus).age 25)
          (orD ({ noPlayer with age := some 30,
                                monthly_expense := some 100 } :
            PlayerStatus).monthly_expense 0)
          (orD noInvest.conservative_return_rate (3 / 100))
          (orD noInvest.inflation_rate (3 / 100)) e → 30 ≤ e.1 := by
  have hsome : (check_fire_achievement
      [((30 : ℤ), ⟨0, 0, 0, 0, 0, 0, 0, 100000, 0, 0⟩)]
      { noPlayer with age := some 30, monthly_expense := some 100 }
      noInvest).fire_age_growing = some 30 := by
    rw [show (check_fire_achievement
        [((30 : ℤ), ⟨0, 0, 0, 0, 0, 0, 0, 100000, 0, 0⟩)]
        { noPlayer with age := some 30, monthly_expense := some 100 }
        noInvest).fire_age_growing =
      ((sortedEntries [((30 : ℤ), ⟨0, 0, 0, 0, 0, 0, 0, 100000, 0, 0⟩)]).foldl
        (fireScanStep 85 30 100 (3 / 100) (3 / 100))
        ⟨none, none, []⟩).fire_age_growing from rfl]
    rw [show sortedEntries [((30 : ℤ), ⟨0, 0, 0, 0, 0, 0, 0, 100000, 0, 0⟩)] =
      [((30 : ℤ), ⟨0, 0, 0, 0, 0, 0, 0, 100000, 0, 0⟩)] from
      List.mergeSort_singleton _]
    decide
  exact ⟨hsome,
    (C5_fire_achievement_scan [((30 : ℤ), ⟨0, 0, 0, 0, 0, 0, 0, 100000, 0, 0⟩)]
      { noPlayer with age := some 30, monthly_expense := some 100 }
      noInvest).2.1 30 hsome⟩

end FireSim
